import Mathlib

/-!
Verification of the content-pipeline orchestrator of the shitpostBot
repository against its natural-language specification.

The Python source is shallowly embedded: pure computations become Lean
functions over `Nat`/`Int`/`ℚ`, the SQLite-backed state becomes an explicit
record of rows, nullable columns become `Option`, and Python `try/except`
becomes explicit `Except` handling.  Timestamps are modelled at one-second
granularity: a `DT` is a day count since the epoch (1970-01-01, a Thursday)
plus a second-of-day; `datetime.utcnow()` values are passed in explicitly as
`now` parameters.  Python `float` arithmetic on scores, weights and durations
is modelled with `ℚ`, keeping the exact literals the source uses.
-/

namespace ShitpostBot

/-! ## SelectionEngine: `ContentSelector.calculate_weight`
(src/processors/content_selector.py, lines 45-65)

`last_used_at` is a nullable timestamp, modelled as `Option Int` (seconds
since epoch); `(datetime.utcnow() - last_used_at).days` is Python floor
division of the signed difference in seconds by 86400, which for the
positive divisor 86400 coincides with Lean's `Int` division `/` (ediv). -/

def calculate_weight (usageCount : Nat) (lastUsedAt : Option Int) (now : Int) : ℚ :=
  let baseWeight : ℚ := 1 / (1 + (usageCount : ℚ))
  let recencyFactor : ℚ :=
    match lastUsedAt with
    | some t => if (now - t) / 86400 < 7 then 1/5 else 1
    | none => 1
  max (baseWeight * recencyFactor) (1/10)

/-- Recency factor as the specification words it: `0.2` when `last_used_at`
is non-null and within 7 days of `now` (i.e. less than 7 × 86400 seconds
before `now`), else `1.0`.  Used to compare the spec's formula with
`calculate_weight` as implemented. -/
def spec_recency_factor (lastUsedAt : Option Int) (now : Int) : ℚ :=
  match lastUsedAt with
  | some t => if now - t < 7 * 86400 then 1/5 else 1
  | none => 1

theorem recency_factor_agrees (lastUsedAt : Option Int) (now : Int) :
    (match lastUsedAt with
      | some t => if (now - t) / 86400 < 7 then (1/5 : ℚ) else 1
      | none => 1) = spec_recency_factor lastUsedAt now := by
  unfold spec_recency_factor
  cases lastUsedAt with
  | none => rfl
  | some t =>
    have h : (now - t) / 86400 < 7 ↔ now - t < 7 * 86400 := by omega
    dsimp only
    by_cases hc : now - t < 7 * 86400
    · rw [if_pos (h.mpr hc), if_pos hc]
    · rw [if_neg (fun hl => hc (h.mp hl)), if_neg hc]

/-- C5: `calculate_weight` on an asset with `usage_count = k` returns
`max ((1/(1+k)) * r, 0.1)` with `r = 0.2` exactly when `last_used_at` is
non-null and within 7 days of `now`, else `r = 1.0`; the result is always
at least `0.1`; and a used-within-7-days asset's weight is one fifth of the
never-used weight whenever the `0.1` floor does not bind (i.e. whenever
`(1/(1+k)) * 0.2 ≥ 0.1`). -/
theorem C5_calculate_weight_formula (k : Nat) (lastUsedAt : Option Int) (now : Int) :
    calculate_weight k lastUsedAt now
      = max ((1 / (1 + (k : ℚ))) * spec_recency_factor lastUsedAt now) (1/10) ∧
    (1/10 : ℚ) ≤ calculate_weight k lastUsedAt now ∧
    (∀ t : Int, lastUsedAt = some t → now - t < 7 * 86400 →
      (1/10 : ℚ) ≤ (1 / (1 + (k : ℚ))) * (1/5) →
      calculate_weight k lastUsedAt now = calculate_weight k none now / 5) := by
  have hform : calculate_weight k lastUsedAt now
      = max ((1 / (1 + (k : ℚ))) * spec_recency_factor lastUsedAt now) (1/10) := by
    unfold calculate_weight
    rw [recency_factor_agrees]
  refine ⟨hform, ?_, ?_⟩
  · rw [hform]; exact le_max_right _ _
  · intro t ht hrecent hfloor
    have hbase : (1/2 : ℚ) ≤ 1 / (1 + (k : ℚ)) := by
      have := hfloor
      nlinarith [this]
    rw [hform, ht]
    unfold spec_recency_factor
    dsimp only
    rw [if_pos hrecent]
    have h1 : max ((1 / (1 + (k : ℚ))) * (1/5)) (1/10) = (1 / (1 + (k : ℚ))) * (1/5) :=
      max_eq_left hfloor
    have h2 : calculate_weight k none now = 1 / (1 + (k : ℚ)) := by
      unfold calculate_weight
      simp only
      rw [mul_one]
      exact max_eq_left (le_trans (by norm_num) hbase)
    rw [h1, h2]
    ring

/-- Witness for C5 at a concrete input: `usage_count = 0`, last used at the
epoch, evaluated at `now` = epoch (so trivially within 7 days); the floor
does not bind and the weight `1/5` is one fifth of the never-used weight
`1`. -/
theorem C5_calculate_weight_formula_witness :
    calculate_weight 0 (some 0) 0
      = max ((1 / (1 + (0 : ℚ))) * spec_recency_factor (some 0) 0) (1/10) ∧
    calculate_weight 0 (some 0) 0 = calculate_weight 0 none 0 / 5 := by
  have h := C5_calculate_weight_formula 0 (some 0) 0
  refine ⟨by simpa using h.1, h.2.2 0 rfl (by norm_num) (by norm_num)⟩

/-! ## SelectionEngine: `ContentSelector.is_valid_combination` and
`ContentSelector.find_matching_combination`
(src/processors/content_selector.py, lines 151-195)

The drawn assets are nullable (the per-type selectors return `None` on
empty pools or selection errors), and the `duration` columns are nullable
floats.  The source's guard `if video.duration and music.duration:` is
Python truthiness: the duration check is skipped when either duration is
`None` or `0.0`.  Randomness in the per-attempt draws is modelled by a
parameter `draw` giving the triple each attempt would select. -/

structure SelVideo where
  duration : Option ℚ
deriving DecidableEq

structure SelMusic where
  duration : Option ℚ
deriving DecidableEq

structure SelQuote where
  text : String
deriving DecidableEq

structure ContentCombination where
  video : SelVideo
  music : SelMusic
  quote : SelQuote
deriving DecidableEq

/-- Python truthiness of a nullable float: `None` and `0.0` are falsy. -/
def floatTruthy : Option ℚ → Bool
  | none => false
  | some x => x != 0

/-- Duration compatibility as coded: the check fires only when both
durations are truthy, and then rejects iff `video.duration >
music.duration * 1.2`. -/
def durationOk (vd md : Option ℚ) : Bool :=
  if floatTruthy vd && floatTruthy md then
    match vd, md with
    | some dv, some dm => decide (dv ≤ dm * (6/5))
    | _, _ => true
  else true

def is_valid_combination (video : Option SelVideo) (music : Option SelMusic)
    (quote : Option SelQuote) : Bool :=
  if video.isNone || music.isNone || quote.isNone then false
  else durationOk (video.bind (·.duration)) (music.bind (·.duration))

/-- One random draw of the three asset kinds, as `select_video`,
`select_music`, `select_quote` would return them for a given attempt. -/
abbrev DrawTriple := Option SelVideo × Option SelMusic × Option SelQuote

/-- The attempt loop of `find_matching_combination`: `attempt` is the index
of the next draw, the second argument the remaining attempts. -/
def findLoop (draw : Nat → DrawTriple) : Nat → Nat → Option ContentCombination
  | _, 0 => none
  | attempt, fuel+1 =>
    match (draw attempt).1, (draw attempt).2.1, (draw attempt).2.2 with
    | some vv, some mm, some qq =>
      if is_valid_combination (some vv) (some mm) (some qq) then some ⟨vv, mm, qq⟩
      else findLoop draw (attempt+1) fuel
    | _, _, _ => findLoop draw (attempt+1) fuel

/-- Source: `for attempt in range(5)` — five attempts, then `None`
("exhausted"). -/
def find_matching_combination (draw : Nat → DrawTriple) : Option ContentCombination :=
  findLoop draw 0 5

def validAt (draw : Nat → DrawTriple) (i : Nat) : Bool :=
  is_valid_combination (draw i).1 (draw i).2.1 (draw i).2.2

theorem durationOk_iff (vd md : Option ℚ) :
    durationOk vd md = true ↔
      (∀ dv dm, vd = some dv → md = some dm → dv ≠ 0 → dm ≠ 0 → dv ≤ dm * (6/5)) := by
  cases vd with
  | none => simp [durationOk, floatTruthy]
  | some dv =>
    cases md with
    | none => simp [durationOk, floatTruthy]
    | some dm =>
      by_cases hv : dv = 0
      · subst hv; simp [durationOk, floatTruthy]
      · by_cases hm : dm = 0
        · subst hm; simp [durationOk, floatTruthy, hv]
        · simp [durationOk, floatTruthy, hv, hm]

theorem validAt_false_of_long (draw : Nat → DrawTriple) (i : Nat)
    (h : ∀ vv mm, (draw i).1 = some vv → (draw i).2.1 = some mm →
      ∃ dv dm, vv.duration = some dv ∧ mm.duration = some dm ∧ 0 < dm ∧ dm * (6/5) < dv) :
    validAt draw i = false := by
  unfold validAt is_valid_combination
  rcases hv : (draw i).1 with _ | vv
  · simp
  rcases hm : (draw i).2.1 with _ | mm
  · simp
  rcases hq : (draw i).2.2 with _ | qq
  · simp
  obtain ⟨dv, dm, hdv, hdm, hdm0, hlong⟩ := h vv mm hv hm
  have hdv0 : dv ≠ 0 := by
    intro h0
    rw [h0] at hlong
    nlinarith
  simp only [Option.isNone_some, Bool.or_self, Bool.or_false, Bool.false_eq_true,
    if_false]
  have hbody : durationOk vv.duration mm.duration = false := by
    rw [hdv, hdm]
    unfold durationOk floatTruthy
    have h1 : (dv != 0) = true := by simp [hdv0]
    have h2 : (dm != 0) = true := by simp [ne_of_gt hdm0]
    simp [h1, h2, not_le.mpr hlong]
  exact hbody

/-- Validity of a triple forces every component to be present. -/
theorem validAt_components (draw : Nat → DrawTriple) (a : Nat)
    (h : validAt draw a = true) :
    ∃ vv mm qq, (draw a).1 = some vv ∧ (draw a).2.1 = some mm ∧
      (draw a).2.2 = some qq := by
  unfold validAt is_valid_combination at h
  rcases hv : (draw a).1 with _ | vv
  · rw [hv] at h; simp at h
  rcases hm : (draw a).2.1 with _ | mm
  · rw [hm] at h; simp at h
  rcases hq : (draw a).2.2 with _ | qq
  · rw [hq] at h; simp at h
  exact ⟨vv, mm, qq, rfl, rfl, rfl⟩

theorem findLoop_succ_invalid (draw : Nat → DrawTriple) (a n : Nat)
    (h : validAt draw a = false) :
    findLoop draw a (n+1) = findLoop draw (a+1) n := by
  unfold validAt at h
  simp only [findLoop]
  rcases hv : (draw a).1 with _ | vv
  · rfl
  rcases hm : (draw a).2.1 with _ | mm
  · rfl
  rcases hq : (draw a).2.2 with _ | qq
  · rfl
  rw [hv, hm, hq] at h
  dsimp only
  rw [h]
  simp

theorem findLoop_succ_valid (draw : Nat → DrawTriple) (a n : Nat)
    (vv : SelVideo) (mm : SelMusic) (qq : SelQuote)
    (hv : (draw a).1 = some vv) (hm : (draw a).2.1 = some mm)
    (hq : (draw a).2.2 = some qq)
    (h : is_valid_combination (some vv) (some mm) (some qq) = true) :
    findLoop draw a (n+1) = some ⟨vv, mm, qq⟩ := by
  simp only [findLoop]
  rw [hv, hm, hq]
  dsimp only
  rw [h]
  simp

theorem findLoop_eq_none (draw : Nat → DrawTriple) (fuel : Nat) :
    ∀ a, (∀ i, a ≤ i → i < a + fuel → validAt draw i = false) →
      findLoop draw a fuel = none := by
  induction fuel with
  | zero => intro a _; rfl
  | succ n ih =>
    intro a h
    have ha : validAt draw a = false := h a (Nat.le_refl a) (by omega)
    rw [findLoop_succ_invalid draw a n ha]
    exact ih (a+1) fun i hi1 hi2 => h i (by omega) (by omega)

theorem findLoop_some (draw : Nat → DrawTriple) (fuel : Nat) :
    ∀ a c, findLoop draw a fuel = some c →
      ∃ i, a ≤ i ∧ i < a + fuel ∧ validAt draw i = true ∧
        (draw i).1 = some c.video ∧ (draw i).2.1 = some c.music ∧
        (draw i).2.2 = some c.quote ∧
        ∀ b, a ≤ b → b < i → validAt draw b = false := by
  induction fuel with
  | zero => intro a c h; exact absurd h (by simp [findLoop])
  | succ n ih =>
    intro a c h
    by_cases hval : validAt draw a = true
    · obtain ⟨vv, mm, qq, hv, hm, hq⟩ := validAt_components draw a hval
      have hvalid : is_valid_combination (some vv) (some mm) (some qq) = true := by
        unfold validAt at hval
        rwa [hv, hm, hq] at hval
      rw [findLoop_succ_valid draw a n vv mm qq hv hm hq hvalid] at h
      injection h with hc
      subst hc
      exact ⟨a, Nat.le_refl a, by omega, hval, hv, hm, hq,
        fun b hb1 hb2 => absurd hb2 (by omega)⟩
    · have hfalse : validAt draw a = false := Bool.eq_false_iff.mpr hval
      rw [findLoop_succ_invalid draw a n hfalse] at h
      obtain ⟨i, h1, h2, rest⟩ := ih (a+1) c h
      refine ⟨i, by omega, by omega, rest.1, rest.2.1, rest.2.2.1, rest.2.2.2.1, ?_⟩
      intro b hb1 hb2
      rcases Nat.eq_or_lt_of_le hb1 with hb | hb
      · rw [← hb]; exact hfalse
      · exact rest.2.2.2.2 b hb hb2

/-- C6 counterexample: with video duration `10` and music duration `0`
(a falsy float, so the source skips the duration check) the code reports
the combination valid, while the claimed condition
`video.duration ≤ music.duration × 1.2` fails (`10 ≰ 0`). -/
theorem C6_is_valid_combination_counterexample :
    is_valid_combination (some ⟨some 10⟩) (some ⟨some 0⟩) (some ⟨"q"⟩) = true ∧
    ¬ ((10 : ℚ) ≤ 0 * (6/5)) := by
  constructor
  · decide
  · norm_num

/-- C6 (amended): a drawn triple is valid iff all three components are
non-null and, whenever both durations are non-null and non-zero,
`video.duration ≤ music.duration × 1.2` (the duration check is skipped when
either duration is missing or zero); `find_matching_combination` returns
the first valid combination among the 5 attempts; and it returns the
"exhausted" result `none` after exactly 5 failed attempts — in particular
whenever every drawn video's duration exceeds 1.2 × every drawn music
track's (positive) duration. -/
theorem C6_find_matching_combination_amended :
    (∀ (v : Option SelVideo) (m : Option SelMusic) (q : Option SelQuote),
      is_valid_combination v m q = true ↔
        ∃ vv mm qq, v = some vv ∧ m = some mm ∧ q = some qq ∧
          (∀ dv dm, vv.duration = some dv → mm.duration = some dm →
            dv ≠ 0 → dm ≠ 0 → dv ≤ dm * (6/5))) ∧
    (∀ (draw : Nat → DrawTriple) (c : ContentCombination),
      find_matching_combination draw = some c →
        ∃ a, a < 5 ∧ validAt draw a = true ∧
          (draw a).1 = some c.video ∧ (draw a).2.1 = some c.music ∧
          (draw a).2.2 = some c.quote ∧
          ∀ b, b < a → validAt draw b = false) ∧
    (∀ draw : Nat → DrawTriple,
      (∀ a, a < 5 → ∀ vv mm, (draw a).1 = some vv → (draw a).2.1 = some mm →
        ∃ dv dm, vv.duration = some dv ∧ mm.duration = some dm ∧
          0 < dm ∧ dm * (6/5) < dv) →
      find_matching_combination draw = none) := by
  refine ⟨?_, ?_, ?_⟩
  · intro v m q
    cases v with
    | none => simp [is_valid_combination]
    | some vv =>
      cases m with
      | none => simp [is_valid_combination]
      | some mm =>
        cases q with
        | none => simp [is_valid_combination]
        | some qq =>
          unfold is_valid_combination
          simp only [Option.isNone_some, Bool.or_self, Bool.or_false,
            Bool.false_eq_true, if_false, Option.some_bind]
          rw [durationOk_iff]
          constructor
          · intro h
            exact ⟨vv, mm, qq, rfl, rfl, rfl, h⟩
          · rintro ⟨vv2, mm2, qq2, hv, hm, hq, h⟩
            injection hv with hv
            injection hm with hm
            subst hv; subst hm
            exact h
  · intro draw c h
    obtain ⟨i, h1, h2, hval, hv, hm, hq, hmin⟩ := findLoop_some draw 5 0 c h
    exact ⟨i, by omega, hval, hv, hm, hq, fun b hb => hmin b (Nat.zero_le b) hb⟩
  · intro draw h
    apply findLoop_eq_none draw 5 0
    intro i _ hi
    exact validAt_false_of_long draw i (h i (by omega))

/-- Witness for C6 on a concrete draw: every attempt returns video duration
10 and music duration 1 (10 > 1.2), so selection is exhausted and `none` is
returned. -/
theorem C6_find_matching_combination_amended_witness :
    find_matching_combination
      (fun _ => (some ⟨some 10⟩, some ⟨some 1⟩, some ⟨"q"⟩)) = none := by
  apply C6_find_matching_combination_amended.2.2
  intro a _ vv mm hv hm
  injection hv with hv
  injection hm with hm
  subst hv; subst hm
  exact ⟨10, 1, rfl, rfl, by norm_num, by norm_num⟩

/-! ## Orchestrator: `BotOrchestrator.generate_content` iteration skeleton
(src/controllers/orchestrator.py, lines 273-482)

Each of the `count` loop iterations runs inside `try: ... except Exception`,
so a raising iteration is logged and the loop continues; the two `continue`
statements (selection exhaustion / failed download, and quality rejection)
also skip just their iteration.  The outcome of iteration `i` — determined
by the external collaborators, the selector and the quality gate — is
abstracted as `body i`; `generate_content` is the loop that accumulates the
successfully created reels. -/

structure GenReel where
  id : Nat
  outputPath : String
  caption : String
deriving DecidableEq

inductive IterationResult where
  | created : GenReel → IterationResult
  | skipped : IterationResult
  | failed : String → IterationResult
deriving DecidableEq

def generateLoop (body : Nat → IterationResult) : Nat → Nat → List GenReel → List GenReel
  | _, 0, results => results
  | i, n+1, results =>
    let results2 :=
      match body i with
      | .created r => results ++ [r]
      | .skipped => results
      | .failed _ => results
    generateLoop body (i+1) n results2

def generate_content (count : Nat) (body : Nat → IterationResult) : List GenReel :=
  generateLoop body 0 count []

theorem generateLoop_eq (body : Nat → IterationResult) :
    ∀ (n i : Nat) (acc : List GenReel),
      generateLoop body i n acc =
        acc ++ (List.range' i n).filterMap fun j =>
          match body j with
          | .created r => some r
          | _ => none := by
  intro n
  induction n with
  | zero => intro i acc; simp [generateLoop]
  | succ m ih =>
    intro i acc
    rw [List.range'_succ]
    simp only [generateLoop]
    cases hb : body i with
    | created r => rw [ih]; simp [hb]
    | skipped => rw [ih]; simp [hb]
    | failed e => rw [ih]; simp [hb]

/-- C7: `generate_content(count, theme)` is total over every assignment of
per-iteration outcomes — a failing or skipping iteration (selection
exhaustion, quality rejection, render or persistence failure) contributes
nothing and the loop continues — and the call returns exactly the list of
successfully created reels, in iteration order (a possibly-partial list). -/
theorem C7_generate_content_partial_list (count : Nat) (body : Nat → IterationResult) :
    generate_content count body =
      (List.range count).filterMap fun i =>
        match body i with
        | .created r => some r
        | _ => none := by
  unfold generate_content
  rw [generateLoop_eq, List.range_eq_range']
  simp

/-! ## QualityGate: `QualityChecker.is_acceptable` and the orchestrator's
threshold (src/processors/quality_checker.py, lines 224-247, and
src/controllers/orchestrator.py, lines 411-441)

The function's own keyword default is `min_quality_score = 0.7`; the
generation pipeline always passes
`config.get("content.generation.quality_threshold", 0.75)` explicitly. -/

def is_acceptable (qualityScore minQualityScore : ℚ) : Bool :=
  decide (minQualityScore ≤ qualityScore)

/-- The default of the `min_quality_score` parameter in the source's
signature: `def is_acceptable(self, video_path, min_quality_score: float = 0.7)`. -/
def is_acceptable_default_min_score : ℚ := 7/10

/-- The threshold the orchestrator passes at its call site:
`self.config.get("content.generation.quality_threshold", 0.75)`. -/
def generation_quality_threshold (cfg : Option ℚ) : ℚ := cfg.getD (3/4)

/-- State touched by the post-render portion of one `generate_content`
iteration: persisted reels and the three selected assets' usage counters. -/
structure IterationState where
  reels : List GenReel
  videoUsage : Nat
  musicUsage : Nat
  quoteUsage : Nat
deriving DecidableEq

/-- The quality-gate region of one iteration (orchestrator lines 411-441):
if the artifact fails `is_acceptable` the iteration hits `continue` before
persisting the reel and before the usage-count updates; on acceptance the
reel is persisted and all three usage counters are incremented. -/
def qualityGateStep (st : IterationState) (score threshold : ℚ)
    (newReel : GenReel) : IterationState :=
  if is_acceptable score threshold then
    { reels := st.reels ++ [newReel],
      videoUsage := st.videoUsage + 1,
      musicUsage := st.musicUsage + 1,
      quoteUsage := st.quoteUsage + 1 }
  else st

/-- C9 counterexample: called without a threshold, `is_acceptable` accepts a
score of `0.72` (its own default is `0.7`), while under the claimed default
threshold `0.75` a `0.72` artifact must be rejected. -/
theorem C9_is_acceptable_default_counterexample :
    is_acceptable (72/100) is_acceptable_default_min_score = true ∧
    ¬ ((75/100 : ℚ) ≤ 72/100) := by
  constructor
  · simp only [is_acceptable, is_acceptable_default_min_score, decide_eq_true_eq]
    norm_num
  · norm_num

/-- C9 (amended): `is_acceptable(artifact, min_score)` returns true iff the
computed quality score is at least `min_score`; the function's own default
threshold is `0.7`, while the generation pipeline always passes the
configured threshold, whose configuration default is `0.75`; and a rejected
attempt performs no mutation — no reel is persisted and no asset usage
counter is updated. -/
theorem C9_is_acceptable_amended :
    (∀ score minScore : ℚ, is_acceptable score minScore = true ↔ minScore ≤ score) ∧
    is_acceptable_default_min_score = 7/10 ∧
    generation_quality_threshold none = 3/4 ∧
    (∀ cfg : ℚ, generation_quality_threshold (some cfg) = cfg) ∧
    (∀ (st : IterationState) (score threshold : ℚ) (r : GenReel),
      ¬ (threshold ≤ score) → qualityGateStep st score threshold r = st) := by
  refine ⟨?_, rfl, rfl, fun _ => rfl, ?_⟩
  · intro s m
    simp [is_acceptable]
  · intro st s t r h
    unfold qualityGateStep is_acceptable
    simp [h]

/-- Witness for C9 at concrete inputs: a `0.9` artifact passes the `0.75`
threshold, and a `0.5` artifact rejected at `0.75` leaves the iteration
state untouched. -/
theorem C9_is_acceptable_amended_witness :
    is_acceptable (9/10) (3/4) = true ∧
    qualityGateStep ⟨[], 0, 0, 0⟩ (1/2) (3/4) ⟨1, "out.mp4", "cap"⟩ = ⟨[], 0, 0, 0⟩ := by
  have h := C9_is_acceptable_amended
  exact ⟨(h.1 (9/10) (3/4)).mpr (by norm_num),
    h.2.2.2.2 ⟨[], 0, 0, 0⟩ (1/2) (3/4) ⟨1, "out.mp4", "cap"⟩ (by norm_num)⟩

/-! ## QualityGate: `QualityChecker.check_integrity`
(src/processors/quality_checker.py, lines 98-222)

Inputs abstract the filesystem and ffprobe: whether the file exists,
`stat()`'s size (or `none` when unreadable), and the probe result.  The
stream's codec name is taken already lowercased, as the source lowercases
it before comparing.  The source's `duration` fallback (`if not duration
and info.get("format")`) fires exactly when the stream duration is the
falsy `0.0` and a format section exists. -/

structure VideoStreamInfo where
  width : Nat
  height : Nat
  codecName : String
  duration : ℚ

structure ProbeInfo where
  videoStream : Option VideoStreamInfo
  hasAudioStream : Bool
  hasFormatSection : Bool
  formatDuration : ℚ

structure IntegrityInput where
  fileExists : Bool
  statSize : Option Nat
  probe : Option ProbeInfo

structure QualityCheckerCfg where
  minDuration : ℚ := 15
  maxDuration : ℚ := 180
  minFileSize : Nat := 1000000
  maxFileSize : Nat := 500000000
  expectedWidth : Nat := 1080
  expectedHeight : Nat := 1920

def check_integrity (cfg : QualityCheckerCfg) (inp : IntegrityInput) : ℚ :=
  if !inp.fileExists then 0
  else
    match inp.statSize with
    | none => 0
    | some fileSize =>
      let score1 : ℚ :=
        if cfg.minFileSize ≤ fileSize ∧ fileSize ≤ cfg.maxFileSize then 1 else 1 - 1/5
      match inp.probe with
      | none => max score1 (3/10)
      | some info =>
        let score2 : ℚ :=
          match info.videoStream with
          | none => score1 - 3/10
          | some vs =>
            let sRes :=
              if vs.width = cfg.expectedWidth ∧ vs.height = cfg.expectedHeight
              then score1 else score1 - 3/20
            let sCodec :=
              if vs.codecName = "h264" ∨ vs.codecName = "libx264"
              then sRes else sRes - 1/10
            let dur :=
              if vs.duration = 0 ∧ info.hasFormatSection
              then info.formatDuration else vs.duration
            if cfg.minDuration ≤ dur ∧ dur ≤ cfg.maxDuration
            then sCodec else sCodec - 1/5
        let score3 := if info.hasAudioStream then score2 else score2 - 1/10
        max 0 (min 1 score3)

/-- C10: on every input — missing file, unreadable file, failed metadata
extraction, or the accumulated-deduction path — `check_integrity` reports a
quality score inside the closed interval `[0, 1]`, so the quality gate's
threshold comparison is always made against a bounded score. -/
theorem C10_check_integrity_score_bounds (cfg : QualityCheckerCfg) (inp : IntegrityInput) :
    0 ≤ check_integrity cfg inp ∧ check_integrity cfg inp ≤ 1 := by
  obtain ⟨fe, ss, pr⟩ := inp
  cases fe with
  | false => constructor <;> norm_num [check_integrity]
  | true =>
    cases ss with
    | none => constructor <;> norm_num [check_integrity]
    | some fileSize =>
      cases pr with
      | none =>
        unfold check_integrity
        refine ⟨le_max_of_le_right (by norm_num), max_le ?_ (by norm_num)⟩
        dsimp only
        split <;> norm_num
      | some info =>
        unfold check_integrity
        exact ⟨le_max_left 0 _, max_le (by norm_num) (min_le_left 1 _)⟩

/-! ## Timestamps and `BotOrchestrator._get_next_scheduled_time`
(src/controllers/orchestrator.py, lines 574-588) -/

structure DT where
  days : Nat
  sod : Nat
deriving DecidableEq

def DT.toSeconds (t : DT) : Nat := t.days * 86400 + t.sod

/-- Python `datetime.weekday()`: Monday is 0; day 0 (1970-01-01) was a
Thursday, weekday 3. -/
def pyWeekday (days : Nat) : Nat := (days + 3) % 7

/-- Direct embedding of `_get_next_scheduled_time`: `scheduled` keeps
`now`'s date with the configured time of day (`now.replace(hour=..,
minute=.., second=0, microsecond=0)`); only when that instant has already
passed today is a day offset added, computed as `7 - now.weekday() + day`
when `day ≥ now.weekday()`, else `day`. -/
def nextScheduledTime (now : DT) (day hour minute : Nat) : DT :=
  let schedSod := hour * 3600 + minute * 60
  if schedSod ≤ now.sod then
    let wd := pyWeekday now.days
    let add := if wd ≤ day then 7 - wd + day else day
    ⟨now.days + add, schedSod⟩
  else
    ⟨now.days, schedSod⟩

/-! ## Data model: `GeneratedReel` and `ScheduledPost` rows
(src/database/models.py; src/database/repositories.py)

Only the columns the verified operations read or write are modelled.
`scheduled_posts.reel_id` carries `unique=True` in the schema; new
`ScheduledPost` rows default to status `"pending"`. -/

structure Reel where
  id : Nat
  status : String
  approvedAt : Option DT
deriving DecidableEq

structure SPost where
  reelId : Nat
  scheduledTime : DT
  status : String
  retryCount : Nat
deriving DecidableEq

structure Db where
  reels : List Reel
  posts : List SPost
deriving DecidableEq

/-- `GeneratedReelRepository.get_by_id`: primary-key lookup. -/
def findReel (reels : List Reel) (id : Nat) : Option Reel :=
  reels.find? fun r => r.id == id

def reelGetById (db : Db) (id : Nat) : Option Reel := findReel db.reels id

/-- `GeneratedReelRepository.update_status` (repositories.py lines 140-147):
sets the status of the reel with the given id and stamps
`approved_at = utcnow()` only when the new status is `"approved"`; a
missing id changes nothing. -/
def reelUpdateStatus (db : Db) (id : Nat) (status : String) (now : DT) : Db :=
  { db with
      reels := db.reels.map fun r =>
        if r.id == id then
          { r with
              status := status,
              approvedAt := if status == "approved" then some now else r.approvedAt }
        else r }

/-- `ScheduledPostRepository.create` (repositories.py lines 163-167) under
the schema's `unique=True` constraint on `scheduled_posts.reel_id`: the
insert commits a new row with default status `"pending"`, or the commit
fails with an integrity error when a row for the same reel already exists,
leaving the store unchanged. -/
def spostCreate (db : Db) (reelId : Nat) (schedTime : DT) : Except String Db :=
  if db.posts.any (fun p => p.reelId == reelId) then
    .error "UNIQUE constraint failed: scheduled_posts.reel_id"
  else
    .ok { db with posts := db.posts ++ [⟨reelId, schedTime, "pending", 0⟩] }

/-- `ScheduledPostRepository.get_due_posts` (repositories.py lines 169-177):
rows with `scheduled_time ≤ now` and `status == "pending"`. -/
def getDuePosts (db : Db) (now : DT) : List SPost :=
  db.posts.filter fun p =>
    decide (p.scheduledTime.toSeconds ≤ now.toSeconds) && p.status == "pending"

/-- One entry of `scheduling.post_times`; `.get("day", 1)` and
`.get("time", "18:00")` supply the parsed fields. -/
structure PostTimeCfg where
  day : Nat
  hour : Nat
  minute : Nat
deriving DecidableEq

/-- `BotOrchestrator.schedule_reel` (orchestrator.py lines 484-521): a
missing reel or an empty `scheduling.post_times` list exits early with no
mutation; otherwise a `ScheduledPost` at the next slot of the first
configured time is inserted, and any exception — including the
unique-constraint failure when the reel is already scheduled — is caught
by the surrounding handler, leaving the store as it was. -/
def scheduleReel (db : Db) (postTimes : List PostTimeCfg) (now : DT) (reelId : Nat) : Db :=
  match reelGetById db reelId with
  | none => db
  | some _ =>
    match postTimes with
    | [] => db
    | t :: _ =>
      match spostCreate db reelId (nextScheduledTime now t.day t.hour t.minute) with
      | .ok db2 => db2
      | .error _ => db

/-- Replies the Telegram command handlers send. -/
inductive TgReply where
  | usageError
  | notFound (reelId : Nat)
  | approvedOk (reelId : Nat)
  | rejectedOk (reelId : Nat)
deriving DecidableEq

/-- `TelegramBot.approve` (telegram_bot.py lines 379-419): a missing or
falsy (`0`) argument yields the usage reply; an unknown id the distinct
not-found reply with no mutation; otherwise the handler calls
`update_status(reel_id, "approved")` unconditionally — it never consults
the reel's current status — and has the orchestrator schedule the reel. -/
def approve (db : Db) (postTimes : List PostTimeCfg) (now : DT) (arg : Option Nat) :
    Db × TgReply :=
  match arg with
  | none => (db, .usageError)
  | some reelId =>
    if reelId == 0 then (db, .usageError)
    else
      match reelGetById db reelId with
      | none => (db, .notFound reelId)
      | some _ =>
        let db1 := reelUpdateStatus db reelId "approved" now
        let db2 := scheduleReel db1 postTimes now reelId
        (db2, .approvedOk reelId)

/-- `TelegramBot.reject` (telegram_bot.py lines 421-469): for an existing
reel, when its status is `"approved"` the first `ScheduledPost` row with
its `reel_id` is deleted, then the status is set to `"rejected"`. -/
def reject (db : Db) (now : DT) (arg : Option Nat) : Db × TgReply :=
  match arg with
  | none => (db, .usageError)
  | some reelId =>
    if reelId == 0 then (db, .usageError)
    else
      match reelGetById db reelId with
      | none => (db, .notFound reelId)
      | some r =>
        let db1 :=
          if r.status == "approved" then
            { db with posts := db.posts.eraseP fun p => p.reelId == reelId }
          else db
        let db2 := reelUpdateStatus db1 reelId "rejected" now
        (db2, .rejectedOk reelId)

/-- The `ScheduledPostRepository` class defines no `model` attribute
anywhere in repositories.py; this constant records that fact from the
source. -/
def scheduledPostRepositoryHasModelAttr : Bool := false

/-- `BotOrchestrator.publish_scheduled_job` (orchestrator.py lines
252-271), returning the reel ids it passes to
`publish_reel_to_instagram`: the body queries
`ScheduledPostRepository.model` — an attribute the class never defines —
so the lookup raises `AttributeError` before selecting anything, and the
job's blanket `except Exception` swallows it: nothing is published.  Were
the attribute present, the filter as written selects
`scheduled_time <= now` and `status == "scheduled"`, a status no row ever
carries (rows are created with status `"pending"`). -/
def publishScheduledJob (db : Db) (now : DT) : List Nat :=
  if scheduledPostRepositoryHasModelAttr then
    (db.posts.filter fun p =>
      decide (p.scheduledTime.toSeconds ≤ now.toSeconds) && p.status == "scheduled").map
      (fun p => p.reelId)
  else []

/-! ## Helper lemmas about the store operations -/

theorem findReel_update (reels : List Reel) (id : Nat) (status : String) (now : DT) :
    findReel
      (reels.map fun r =>
        if r.id == id then
          { r with
              status := status,
              approvedAt := if status == "approved" then some now else r.approvedAt }
        else r) id
      = (findReel reels id).map fun r =>
          { r with
              status := status,
              approvedAt := if status == "approved" then some now else r.approvedAt } := by
  unfold findReel
  rw [List.find?_map]
  have hcomp : ((fun r : Reel => r.id == id) ∘ fun r : Reel =>
      if r.id == id then
        { r with
            status := status,
            approvedAt := if status == "approved" then some now else r.approvedAt }
      else r) = fun r : Reel => r.id == id := by
    funext r
    by_cases h : (r.id == id) = true
    · simp [Function.comp, h]
    · simp [Function.comp, h]
  rw [hcomp]
  cases hfind : List.find? (fun r : Reel => r.id == id) reels with
  | none => rfl
  | some x =>
    have hx : x.id = id := by simpa using List.find?_some hfind
    simp [hx]

theorem scheduleReel_reels (db : Db) (pts : List PostTimeCfg) (now : DT) (id : Nat) :
    (scheduleReel db pts now id).reels = db.reels := by
  unfold scheduleReel
  cases reelGetById db id with
  | none => rfl
  | some r =>
    cases pts with
    | nil => rfl
    | cons t ts =>
      unfold spostCreate
      by_cases h : db.posts.any (fun p => p.reelId == id) = true
      · simp [h]
      · simp [h]

theorem eraseP_all_not (p : SPost → Bool) (l : List SPost)
    (h : l.countP p ≤ 1) : ∀ x ∈ l.eraseP p, p x = false := by
  induction l with
  | nil => intro x hx; simp at hx
  | cons a t ih =>
    by_cases ha : p a = true
    · rw [List.eraseP_cons_of_pos ha]
      intro x hx
      have hz : t.countP p = 0 := by
        rw [List.countP_cons_of_pos _ _ ha] at h
        omega
      have := List.countP_eq_zero.mp hz x hx
      simpa using this
    · have ha2 : p a = false := Bool.eq_false_iff.mpr ha
      rw [List.eraseP_cons_of_neg (by simp [ha2])]
      intro x hx
      rcases List.mem_cons.mp hx with hx | hx
      · rw [hx]; exact ha2
      · refine ih ?_ x hx
        rw [List.countP_cons_of_neg] at h
        · exact h
        · simp [ha2]

/-! ## C1: `_get_next_scheduled_time` -/

/-- C1 (code evaluated at the failing input): on Wednesday 1970-01-07
10:00 UTC (day 6, `pyWeekday 6 = 2`) with target weekday Tuesday
(`day = 1`) and time `"18:00"`, `_get_next_scheduled_time` returns the
same Wednesday at 18:00 — not the claimed following Tuesday 18:00 — since
the target-time-today instant has not yet passed and the date is then
never moved; moreover on Wednesday 19:00 with target Monday (`day = 0`)
18:00 it adds `day = 0` days and returns Wednesday 18:00, an instant in
the past. -/
theorem C1_next_scheduled_time_failing_input :
    nextScheduledTime ⟨6, 36000⟩ 1 18 0 = ⟨6, 64800⟩ ∧
    pyWeekday 6 = 2 ∧ pyWeekday 6 ≠ 1 ∧
    (nextScheduledTime ⟨6, 68400⟩ 0 18 0).toSeconds < (DT.mk 6 68400).toSeconds := by
  refine ⟨rfl, rfl, by decide, by decide⟩

/-! ## C2: the `approve` handler -/

/-- C2 counterexample: approving the reel with id 1 while its status is
`"rejected"` mutates it — its status becomes `"approved"` (and
`approved_at` is stamped), contradicting the claim that a non-pending reel
is left unmutated with an invalid-state reply. -/
theorem C2_approve_rejected_reel_counterexample :
    ((approve ⟨[⟨1, "rejected", none⟩], []⟩ [] ⟨0, 0⟩ (some 1)).1.reels.map
      fun r => r.status) = ["approved"] := by
  rfl

/-- C2 (amended): a missing reel id gets the distinct not-found reply and
no mutation, but the handler performs no invalid-state check: `approve` on
any existing reel — whatever its status, including `"rejected"` — replies
success, sets the status to `"approved"`, stamps `approved_at = now`, and
triggers scheduling. -/
theorem C2_approve_behavior (db : Db) (pts : List PostTimeCfg) (now : DT) (id : Nat)
    (hid : id ≠ 0) :
    (reelGetById db id = none →
      approve db pts now (some id) = (db, TgReply.notFound id)) ∧
    (∀ r, reelGetById db id = some r →
      (approve db pts now (some id)).2 = TgReply.approvedOk id ∧
      reelGetById (approve db pts now (some id)).1 id =
        some { r with status := "approved", approvedAt := some now }) := by
  have hbeq : (id == 0) = false := by simpa using hid
  constructor
  · intro h
    unfold approve
    dsimp only
    rw [hbeq]
    simp only [Bool.false_eq_true, if_false]
    rw [h]
  · intro r hr
    unfold approve
    dsimp only
    rw [hbeq]
    simp only [Bool.false_eq_true, if_false]
    rw [hr]
    refine ⟨rfl, ?_⟩
    show reelGetById (scheduleReel (reelUpdateStatus db id "approved" now) pts now id) id = _
    unfold reelGetById
    rw [scheduleReel_reels]
    unfold reelUpdateStatus
    show findReel (db.reels.map _) id = _
    rw [findReel_update]
    unfold reelGetById at hr
    rw [hr]
    rfl

/-- Witness for C2 at a concrete store: one pending reel with id 1;
`approve 1` replies success and the reel ends `"approved"` with
`approved_at` stamped. -/
theorem C2_approve_behavior_witness :
    (approve ⟨[⟨1, "pending", none⟩], []⟩ [] ⟨0, 0⟩ (some 1)).2 = TgReply.approvedOk 1 ∧
    reelGetById (approve ⟨[⟨1, "pending", none⟩], []⟩ [] ⟨0, 0⟩ (some 1)).1 1 =
      some ⟨1, "approved", some ⟨0, 0⟩⟩ := by
  have h := (C2_approve_behavior ⟨[⟨1, "pending", none⟩], []⟩ [] ⟨0, 0⟩ 1
    (by decide)).2 ⟨1, "pending", none⟩ rfl
  exact h

/-! ## C3: `publish_scheduled_job` -/

/-- C3 (code evaluated at the failing input): with a single due pending
`ScheduledPost` (reel 1, scheduled at the epoch, status `"pending"`) and
`now` one day later, `publish_scheduled_job` publishes nothing, although
the due pending rows — exactly what the claim says is published — are
nonempty. -/
theorem C3_publish_scheduled_job_publishes_nothing :
    publishScheduledJob ⟨[⟨1, "approved", none⟩], [⟨1, ⟨0, 0⟩, "pending", 0⟩]⟩ ⟨1, 0⟩
      = [] ∧
    getDuePosts ⟨[⟨1, "approved", none⟩], [⟨1, ⟨0, 0⟩, "pending", 0⟩]⟩ ⟨1, 0⟩
      = [⟨1, ⟨0, 0⟩, "pending", 0⟩] := by
  exact ⟨rfl, rfl⟩

/-! ## C4: scheduling is duplicate-free -/

/-- C4: once a `ScheduledPost` row exists for a reel, a further
`schedule_reel` call for the same reel is a no-op — the unique constraint
on `reel_id` fails the insert, the handler swallows the error, and the
store is unchanged; and from any store with at most one row for the reel,
a call leaves at most one row for it. -/
theorem C4_schedule_reel_no_duplicate (db : Db) (pts : List PostTimeCfg) (now : DT)
    (id : Nat) :
    ((∃ p ∈ db.posts, p.reelId = id) → scheduleReel db pts now id = db) ∧
    (db.posts.countP (fun p => p.reelId == id) ≤ 1 →
      (scheduleReel db pts now id).posts.countP (fun p => p.reelId == id) ≤ 1) := by
  have hnoop : db.posts.any (fun p => p.reelId == id) = true →
      scheduleReel db pts now id = db := by
    intro hany
    unfold scheduleReel
    cases reelGetById db id with
    | none => rfl
    | some r =>
      cases pts with
      | nil => rfl
      | cons t ts =>
        unfold spostCreate
        rw [hany]
        rfl
  constructor
  · rintro ⟨p, hp, hpid⟩
    exact hnoop (List.any_eq_true.mpr ⟨p, hp, by simpa using hpid⟩)
  · intro hcount
    by_cases hany : db.posts.any (fun p => p.reelId == id) = true
    · rw [hnoop hany]; exact hcount
    · have hzero : db.posts.countP (fun p => p.reelId == id) = 0 := by
        refine List.countP_eq_zero.mpr ?_
        intro a ha hpa
        exact hany (List.any_eq_true.mpr ⟨a, ha, hpa⟩)
      unfold scheduleReel
      cases reelGetById db id with
      | none => simpa using hcount
      | some r =>
        cases pts with
        | nil => simpa using hcount
        | cons t ts =>
          unfold spostCreate
          rw [Bool.eq_false_iff.mpr hany]
          simp only [Bool.false_eq_true, if_false]
          rw [List.countP_append, hzero]
          simp

/-- Witness for C4 at a concrete store: reel 1 already has a scheduled
post, so scheduling it again changes nothing. -/
theorem C4_schedule_reel_no_duplicate_witness :
    scheduleReel ⟨[⟨1, "approved", none⟩], [⟨1, ⟨0, 0⟩, "pending", 0⟩]⟩
        [⟨1, 18, 0⟩] ⟨6, 36000⟩ 1
      = ⟨[⟨1, "approved", none⟩], [⟨1, ⟨0, 0⟩, "pending", 0⟩]⟩ := by
  exact (C4_schedule_reel_no_duplicate _ _ _ _).1 ⟨⟨1, ⟨0, 0⟩, "pending", 0⟩, by simp, rfl⟩

/-! ## C8: the `reject` handler on an approved reel -/

/-- C8: rejecting an approved reel sets its status to `"rejected"` (its
`approved_at` is untouched) and deletes the `ScheduledPost` row
referencing it — under the schema's uniqueness of `reel_id`, no row for
that reel remains, so no active schedule survives for a rejected reel. -/
theorem C8_reject_approved_reel (db : Db) (now : DT) (id : Nat) (r : Reel)
    (hid : id ≠ 0)
    (huniq : db.posts.countP (fun p => p.reelId == id) ≤ 1)
    (hr : reelGetById db id = some r) (hst : r.status = "approved") :
    (reject db now (some id)).2 = TgReply.rejectedOk id ∧
    reelGetById (reject db now (some id)).1 id = some { r with status := "rejected" } ∧
    ∀ p ∈ (reject db now (some id)).1.posts, (p.reelId == id) = false := by
  have hbeq : (id == 0) = false := by simpa using hid
  have hstb : (r.status == "approved") = true := by simpa using hst
  unfold reject
  dsimp only
  rw [hbeq]
  simp only [Bool.false_eq_true, if_false]
  rw [hr]
  dsimp only
  rw [hstb, if_pos rfl]
  refine ⟨rfl, ?_, ?_⟩
  · show reelGetById (reelUpdateStatus
      { db with posts := db.posts.eraseP fun p => p.reelId == id } id "rejected" now) id = _
    unfold reelGetById reelUpdateStatus
    show findReel (List.map _ _) id = _
    rw [findReel_update]
    unfold reelGetById at hr
    show (findReel db.reels id).map _ = _
    rw [hr]
    rfl
  · show ∀ p ∈ (reelUpdateStatus
      { db with posts := db.posts.eraseP fun p => p.reelId == id } id "rejected" now).posts,
      (p.reelId == id) = false
    unfold reelUpdateStatus
    exact eraseP_all_not _ _ huniq

/-- Witness for C8 at a concrete store: one approved reel with one
scheduled post; after `reject 1` the reel is `"rejected"` and the post row
is gone. -/
theorem C8_reject_approved_reel_witness :
    (reject ⟨[⟨1, "approved", some ⟨0, 0⟩⟩], [⟨1, ⟨6, 64800⟩, "pending", 0⟩]⟩ ⟨1, 0⟩
        (some 1)).2 = TgReply.rejectedOk 1 ∧
    reelGetById (reject ⟨[⟨1, "approved", some ⟨0, 0⟩⟩], [⟨1, ⟨6, 64800⟩, "pending", 0⟩]⟩
        ⟨1, 0⟩ (some 1)).1 1 = some ⟨1, "rejected", some ⟨0, 0⟩⟩ := by
  have h := C8_reject_approved_reel
    ⟨[⟨1, "approved", some ⟨0, 0⟩⟩], [⟨1, ⟨6, 64800⟩, "pending", 0⟩]⟩ ⟨1, 0⟩ 1
    ⟨1, "approved", some ⟨0, 0⟩⟩ (by decide) (by decide) rfl rfl
  exact ⟨h.1, h.2.1⟩

end ShitpostBot
